import Mathlib

/-!
Verification development for the marucamp LINE-bot webhook handler.

The source is a single AWS Lambda handler (`src/unnamed/part_000`) driving a
per-user conversation state machine over a DynamoDB table, three response
parsers, two flex-message composers, and terminal actions calling a chat
completion service, plus a second, smaller echo webhook (`src/src/handler.ts`).

External effects (DynamoDB puts/gets, LINE reply/push, OpenAI chat calls) are
modelled by an explicit state-and-trace monad `Eff`: the world carries the
durable user store, a list of scripted outcomes for the fallible external
calls (each chat/reply/push call consumes the next outcome, which is either a
returned content string or a thrown exception), and an append-only trace of
the calls that were actually performed.  DynamoDB `PutItem` replaces the whole
item, as its documented semantics dictate; the store is a map from userId to
the stored item.
-/

/-- One stored DynamoDB item of the `Users` table: the `userId` key plus the
optional `state` and `data` attributes (`data` is the JSON-encoded collected
fields; JSON round-trips faithfully, so it is kept structured here). -/
structure CollectedData where
  region : Option String := none
  date : Option String := none
  prefecture : Option String := none
  location : Option String := none
  duration : Option String := none
deriving DecidableEq, Repr

/-- A full item of the `Users` table (besides the `userId` key). A `PutItem`
replaces the whole item with exactly these attributes. -/
structure Item where
  state : Option String := none
  data : Option CollectedData := none
deriving DecidableEq, Repr

/-- The record type of the camp parser (source `interface CampInfo`):
`homepage_url` is optional and in fact never produced by `parseResponse`. -/
structure CampInfo where
  name : String
  homepage_url : Option String := none
deriving DecidableEq, Repr

/-- The declared record type of the yaychi parser (source `interface
YaychiInfo`, lines 24-28): all three fields are declared required strings. -/
structure YaychiInfo where
  name : String
  spot : String
  description : String
deriving DecidableEq, Repr

/-- The runtime shape of the records `parseYaychiResponse` actually builds:
`currentInfo` is a `Partial<YaychiInfo>` and the `as YaychiInfo` cast performs
no runtime check, so `spot` and `description` may be absent (undefined). -/
structure YaychiRec where
  name : Option String := none
  spot : Option String := none
  description : Option String := none
deriving DecidableEq, Repr

/-- The record type of the item parser (source `interface ItemInfo`). -/
structure ItemInfo where
  name : String
  description : String
deriving DecidableEq, Repr

/-- The calls the handler issues against its external collaborators, in the
order they are performed. `putStore`/`getStore` are the DynamoDB accesses,
`replyCall` and `pushText`/`pushFlex` the LINE deliveries, `genCall` a chat
completion request (role-tagged messages). -/
inductive Call where
  | putStore (uid : String) (item : Item)
  | getStore (uid : String)
  | replyCall (token : String) (text : String)
  | pushText (uid : String) (text : String)
  | pushFlex (uid : String)
  | genCall (messages : List (String × String))
deriving DecidableEq, Repr

/-- The scripted outcome of one fallible external call: a successful result
(carrying the returned completion content; ignored by deliveries) or a thrown
exception. -/
inductive Outcome where
  | ok (content : String)
  | throw
deriving DecidableEq, Repr

/-- The world a handler invocation runs in: the durable store, the script of
outcomes for the remaining external calls, and the trace of performed calls. -/
structure World where
  store : String → Option Item
  env : List Outcome
  trace : List Call

/-- Effectful computations: exception-throwing state transformers over `World`. -/
def Eff (α : Type) : Type := World → Except Unit α × World

def Eff.pureE (a : α) : Eff α := fun w => (Except.ok a, w)

def Eff.bindE (m : Eff α) (f : α → Eff β) : Eff β := fun w =>
  match m w with
  | (Except.ok a, w') => f a w'
  | (Except.error e, w') => (Except.error e, w')

instance : Monad Eff where
  pure := Eff.pureE
  bind := Eff.bindE

/-- JS `try { m } catch { h }`: effects performed before the throw remain. -/
def tryCatchE (m : Eff α) (h : Eff α) : Eff α := fun w =>
  match m w with
  | (Except.ok a, w') => (Except.ok a, w')
  | (Except.error _, w') => h w'

/-- Pop the next scripted outcome; an exhausted script yields successes with
empty content. -/
def popOutcome : List Outcome → Outcome × List Outcome
  | [] => (Outcome.ok "", [])
  | o :: rest => (o, rest)

/-- Perform one fallible external call: on a scripted success the call is
recorded in the trace and its content returned, on a scripted throw the
exception propagates and nothing is recorded. -/
def extCall (c : Call) : Eff String := fun w =>
  match popOutcome w.env with
  | (Outcome.ok content, env') =>
      (Except.ok content, { w with env := env', trace := w.trace ++ [c] })
  | (Outcome.throw, env') => (Except.error (), { w with env := env' })

/-- A DynamoDB `PutItemCommand` on the `Users` table: replaces the whole
stored item of `uid` with `item` (plus the key). Store writes are modelled as
infallible (spec section 7: store failures are fatal and unhandled). -/
def putItemE (uid : String) (item : Item) : Eff Unit := fun w =>
  (Except.ok (),
   { w with store := fun u => if u = uid then some item else w.store u,
            trace := w.trace ++ [Call.putStore uid item] })

/-- Embeds `saveUserId` (lines 482-489): a full-item put whose item holds only
the `userId` key. -/
def saveUserId (uid : String) : Eff Unit := putItemE uid {}

/-- Embeds `getState` (lines 491-500): `GetItemCommand` and `res.Item?.state?.S`. -/
def getState (uid : String) : Eff (Option String) := fun w =>
  (Except.ok ((w.store uid).bind Item.state),
   { w with trace := w.trace ++ [Call.getStore uid] })

/-- Embeds `putState` (lines 502-510): put of `userId` and `state` only. -/
def putState (uid : String) (state : String) : Eff Unit :=
  putItemE uid { state := some state }

/-- Embeds `putStateWithData` (lines 512-521): put of `userId`, `state` and the
JSON-encoded `data` (`JSON.stringify` drops `undefined` fields, which the
`Option` fields model). -/
def putStateWithData (uid : String) (state : String) (data : CollectedData) : Eff Unit :=
  putItemE uid { state := some state, data := some data }

/-- Embeds `getStateData` (lines 523-536) without a key: returns the parsed
`data` attribute, or `{}` when absent. Key projections are done at call
sites, mirroring `getStateData(uid, key)` returning `data[key]`. -/
def getStateData (uid : String) : Eff CollectedData := fun w =>
  (Except.ok (match (w.store uid).bind Item.data with
              | none => {}
              | some d => d),
   { w with trace := w.trace ++ [Call.getStore uid] })

/-- Embeds `clearState` (lines 538-545): identical put to `saveUserId`. -/
def clearState (uid : String) : Eff Unit := putItemE uid {}

/-- Embeds `reply` (lines 459-461): one `replyMessage` delivery. -/
def reply (replyToken : String) (text : String) : Eff Unit := do
  let _ ← extCall (Call.replyCall replyToken text)
  pure ()

/-- Fuel-driven loop for the 5000-character chunking of `pushMessage`; every
step consumes at least one character, so fuel equal to the character count
always suffices (structural recursion keeps the function kernel-reducible). -/
def chunkGo : Nat → List Char → List String
  | _, [] => []
  | 0, c :: rest => [String.mk (c :: rest)]
  | Nat.succ n, c :: rest =>
      String.mk ((c :: rest).take 5000) :: chunkGo n ((c :: rest).drop 5000)

/-- The 5000-character chunks `pushMessage` splits a text into
(`text.slice(i, i + 5000)` for `i = 0, 5000, ...`); an empty text yields no
chunk and hence no delivery. -/
def chunkChars (cs : List Char) : List String := chunkGo cs.length cs

/-- Push each chunk as its own `pushMessage` delivery, in order. -/
def pushChunks (uid : String) : List String → Eff Unit
  | [] => pure ()
  | t :: rest => do
      let _ ← extCall (Call.pushText uid t)
      pushChunks uid rest

/-- Embeds `pushMessage` (lines 463-476). -/
def pushMessage (uid : String) (text : String) : Eff Unit :=
  pushChunks uid (chunkChars text.data)

/-- Embeds `pushFlexMessage` (lines 478-480). -/
def pushFlexMessage (uid : String) : Eff Unit := do
  let _ ← extCall (Call.pushFlex uid)
  pure ()

/-- JS string truthiness of an optional string: `undefined` and `""` are falsy. -/
def jsTruthy : Option String → Bool
  | none => false
  | some s => !(s == "")

/-- JS `a || b` on a (non-null) string `a`: the fallback replaces the empty
string. -/
def jsOr (s fallback : String) : String := if s = "" then fallback else s

/-- JS template-literal rendering of a possibly-undefined string argument. -/
def jsShow : Option String → String
  | some s => s
  | none => "undefined"

/-- Find the first occurrence of the separator in the character list: returns
the part before it and the part after it, or `none` when it does not occur. -/
def findSplit (sep : List Char) : List Char → Option (List Char × List Char)
  | [] => none
  | c :: rest =>
      if sep.isPrefixOf (c :: rest) then some ([], (c :: rest).drop sep.length)
      else match findSplit sep rest with
        | some (pre, post) => some (c :: pre, post)
        | none => none

/-- Fuel-driven splitting loop; a non-empty separator consumes at least one
character per split, so fuel equal to the character count always suffices
(structural recursion keeps the function kernel-reducible). -/
def splitGo (sep : List Char) : Nat → List Char → List (List Char)
  | 0, cs => [cs]
  | Nat.succ n, cs =>
      match findSplit sep cs with
      | none => [cs]
      | some (pre, post) => pre :: splitGo sep n post

/-- JS `s.split(sep)` for a non-empty separator string (the only way the
source calls it): the list of separator-delimited parts, with empty parts for
adjacent, leading and trailing separators. -/
def jsSplit (s sep : String) : List String :=
  if sep.data = [] then [s]
  else (splitGo sep.data (s.data.length + 1) s.data).map String.mk

/-- JS `s.trim()`: strip leading and trailing whitespace. -/
def jsTrim (s : String) : String :=
  String.mk (((s.data.dropWhile Char.isWhitespace).reverse.dropWhile Char.isWhitespace).reverse)

/-- JS `s.startsWith(pre)`. -/
def jsStartsWith (s pre : String) : Bool := pre.data.isPrefixOf s.data

/-- Does the trimmed line match `/^\d+\./` (one or more ASCII digits then a
dot), as in `parseItemResponse`. -/
def startsWithNumberDot (s : String) : Bool :=
  match s.data.takeWhile Char.isDigit, s.data.drop (s.data.takeWhile Char.isDigit).length with
  | _ :: _, '.' :: _ => true
  | _, _ => false

/-- JS `line.replace(/^\d+\.\s*/, '')`: strip a leading digit run, the dot and
any following whitespace; a non-matching line is returned unchanged. -/
def stripNumberDot (s : String) : String :=
  match s.data.takeWhile Char.isDigit, s.data.drop (s.data.takeWhile Char.isDigit).length with
  | _ :: _, '.' :: rest => String.mk (rest.dropWhile Char.isWhitespace)
  | _, _ => s

/-! Fixed message and prompt texts of the handler, named for reuse in
theorem statements; each is the literal from the source. -/

def welcomeText : String := "友達追加ありがとうございます🚀"

def regionPrompt : String := "調べたい地域を教えてください。"

def yaychiPrefPrompt : String := "野営したい都道府県を教えてください。"

def itemLocPrompt : String := "行く場所を教えてください。"

def datePrompt : String := "行きたい日にちを教えてください。"

def campCondPrompt : String := "希望する条件はありますか？（例：ペットOK、温泉あり、など）"

def yaychiCondPrompt : String := "希望する条件はありますか？（例：川の近く、山の中、など）"

def itemDurationPrompt : String := "滞在期間を教えてください。"

def itemCondPrompt : String := "その他の特別な条件があれば教えてください。（例：雨の可能性がある、子供連れ、など）"

def campAck (region date conditions : String) : String :=
  s!"{region}の{date}に行きたいキャンプ場を、条件「{conditions}」で調べています..."

def campSearchPrompt (region date conditions : String) : String :=
  s!"{region}の{date}で、条件「{conditions}」を満たすキャンプ場を3つ検索し、名前のみリストで出力してください。"

def campNoInfoMsg : String := "申し訳ありません。キャンプ場の情報を取得できませんでした。"

def campFoundMsg : String := "以下のキャンプ場を見つけました！"

def campDetailPrompt (names : String) : String :=
  s!"{names}について、それぞれ以下の項目を書いてください：\n1.キャンプ場名\n2.市区町村\n3.キャンプ場設備\nこの形式以外は書かないでください。"

def campDetailFallback : String := "詳細情報を取得できませんでした。"

def campErrorMsg : String := "キャンプ場の情報取得中にエラーが発生しました。"

def yaychiAck (prefecture conditions : String) : String :=
  s!"{prefecture}で、条件「{conditions}」に合う野営ができる場所を調べています..."

def yaychiSearchPrompt (prefecture conditions : String) : String :=
  s!"{prefecture}で野営ができる市区町村を3つ調べて、条件「{conditions}」に合うものを選んでください。それぞれの市区町村について以下の情報を教えてください：\n1. 市区町村名\n2. おすすめの野営スポット\n3. そのスポットの特徴や注意点\n回答は以下のフォーマットで提供してください：\n1. [市区町村名]\nおすすめスポット: [スポット名]\n特徴・注意点: [簡単な説明]"

def yaychiNoInfoMsg : String := "申し訳ありません。野営地の情報を取得できませんでした。"

def yaychiFoundMsg (prefecture : String) : String :=
  s!"{prefecture}で野営可能な場所が見つかりました！"

def yaychiErrorMsg : String := "野営地の情報取得中にエラーが発生しました。"

def itemAck (location duration conditions : String) : String :=
  s!"{location}に{duration}の期間で行く際の持ち物を、条件「{conditions}」で提案します..."

def itemListPrompt (location duration conditions : String) : String :=
  s!"{location}に{duration}の期間で行く際に必要な持ち物を、条件「{conditions}」を考慮して10個程度リストアップしてください。それぞれの持ち物について、20文字程度の簡潔な説明を加えてください。"

def itemNoInfoMsg : String := "申し訳ありません。持ち物の情報を取得できませんでした。"

def itemListMsg (itemList : String) : String :=
  s!"以下の持ち物をおすすめします：\n\n{itemList}"

def itemSearchPrompt (name : String) : String :=
  s!"「{name} おすすめ 人気」で検索し、評価の高いアイテムを1つ見つけて、その商品名と50文字以内の特徴を教えてください。"

def itemRecMsg (name content : String) : String :=
  s!"{name}のおすすめ商品：\n{content}"

def itemErrorMsg : String := "持ち物の情報取得中にエラーが発生しました。"

def personaMsg : String := "あなたは「まるキャン」というキャンプの専門家です。キャンプや野営地の質問に答えてください。それ以外の質問には回答しないようにしてください。文末には時々!をつけて、明るいイメージで会話してください。"

def generalFallback : String := "すみません、うまく回答できませんでした。"

def generalErrorMsg : String := "すみません、エラーが発生しました。もう一度お試しください。"

def spotLabel : String := "おすすめスポット:"

def descLabel : String := "特徴・注意点:"

/-! Response parsers (source lines 362-418), pure functions on the completion
content. -/

/-- Embeds `parseResponse` (lines 362-373): every trimmed non-empty line
starting with the literal `1.`, `2.` or `3.` contributes one `CampInfo` whose
name is the prefix-stripped rest; no cap is applied. -/
def parseResponse (content : String) : List CampInfo :=
  (jsSplit content "\n").foldl (fun result line =>
    let l := jsTrim line
    if 0 < l.length ∧ (jsStartsWith l "1." || jsStartsWith l "2." || jsStartsWith l "3.") then
      result ++ [{ name := jsTrim (stripNumberDot l) }]
    else result) []

/-- One step of the `parseYaychiResponse` loop: the accumulator is the emitted
records so far paired with the in-progress `currentInfo`. -/
def yaychiStep (acc : List YaychiRec × YaychiRec) (line : String) :
    List YaychiRec × YaychiRec :=
  let trimmedLine := jsTrim line
  if jsStartsWith trimmedLine "1." || jsStartsWith trimmedLine "2." || jsStartsWith trimmedLine "3." then
    ((if jsTruthy acc.2.name then acc.1 ++ [acc.2] else acc.1),
     { name := some (jsTrim (stripNumberDot trimmedLine)) })
  else if 2 ≤ (jsSplit trimmedLine spotLabel).length then
    (acc.1, { acc.2 with
              spot := some (jsTrim (((jsSplit trimmedLine spotLabel).get? 1).getD "")) })
  else if 2 ≤ (jsSplit trimmedLine descLabel).length then
    (acc.1, { acc.2 with
              description := some (jsTrim (((jsSplit trimmedLine descLabel).get? 1).getD "")) })
  else acc

/-- Embeds `parseYaychiResponse` (lines 375-399): numbered lines start a new
record, `includes`-matched label lines fill `spot`/`description` of the
in-progress record (JS `includes(label)` holds exactly when splitting on the
label yields at least two parts, and `split(label)[1]` is the second part),
a record is flushed when a new numbered line starts or input ends and only if
its name is truthy, and the result is capped by `slice(0, 3)`. -/
def parseYaychiResponse (responseText : String) : List YaychiRec :=
  let r := (jsSplit responseText "\n").foldl yaychiStep ([], {})
  (if jsTruthy r.2.name then r.1 ++ [r.2] else r.1).take 3

/-- Embeds `parseItemResponse` (lines 401-418): a trimmed line matching
`/^\d+\./` is split by JS `split(':', 2)` (the first two colon-separated
parts; anything after a second colon is discarded); exactly two parts yield a
record, otherwise the line is ignored. No cap is applied. -/
def parseItemResponse (responseText : String) : List ItemInfo :=
  (jsSplit responseText "\n").foldl (fun items line =>
    let trimmedLine := jsTrim line
    if startsWithNumberDot trimmedLine then
      match (jsSplit trimmedLine ":").take 2 with
      | [p0, p1] => items ++ [{ name := jsTrim (stripNumberDot p0), description := jsTrim p1 }]
      | _ => items
    else items) []

/-- Per-line record extraction for the item parser, stated the way the
(amended) spec sentence reads; compared against the loop in `parseItemResponse`. -/
def itemLineRecords (line : String) : List ItemInfo :=
  let trimmedLine := jsTrim line
  if startsWithNumberDot trimmedLine then
    match (jsSplit trimmedLine ":").take 2 with
    | [p0, p1] => [{ name := jsTrim (stripNumberDot p0), description := jsTrim p1 }]
    | _ => []
  else []

/-! Card composers (source lines 420-457). The static template JSON files
(`flex/camp.json`, `flex/yaychi.json`) are not part of the repository
snapshot; a bubble is modelled by the fields the composer addresses at its
hardcoded paths, each an optional string since JS assignment can store
`undefined` there. -/

/-- A camp template bubble: `body.contents[0].text` and
`footer.contents[0].contents[0].action.uri`. -/
structure CampBubble where
  bodyText0 : Option String
  footerUri : Option String
deriving DecidableEq, Repr

/-- A yaychi template bubble: `body.contents[0].text`,
`body.contents[1].contents[0].contents[1].text` and
`body.contents[1].contents[1].contents[1].text`. -/
structure YaychiBubble where
  bodyText0 : Option String
  spotText : Option String
  descText : Option String
deriving DecidableEq, Repr

/-- The per-record mutation of `createCampFlexMessage`: the title is always
overwritten; the footer uri only when `camp.homepage_url` is truthy. -/
def campApply (bubble : CampBubble) (camp : CampInfo) : CampBubble :=
  let b := { bubble with bodyText0 := some camp.name }
  if jsTruthy camp.homepage_url then { b with footerUri := camp.homepage_url } else b

/-- The per-record mutation of `createYaychiFlexMessage`: all three text slots
are overwritten with the record's (possibly undefined) fields. -/
def yaychiApply (bubble : YaychiBubble) (info : YaychiRec) : YaychiBubble :=
  { bubble with bodyText0 := info.name, spotText := info.spot, descText := info.description }

/-- The `forEach((record, index) => if (index < template.contents.length) ...)`
loop shared by both composers: record `index` overwrites bubble `index` when
that bubble exists, records beyond the bubble count have no effect. -/
def applyLoop (f : β → α → β) : List α → Nat → List β → List β
  | [], _, template => template
  | record :: rest, index, template =>
      applyLoop f rest (index + 1)
        (if h : index < template.length then
          template.set index (f (template.get ⟨index, h⟩) record)
        else template)

/-- Embeds `createCampFlexMessage` (lines 420-438) on the cloned template's
bubble list. -/
def createCampFlexMessage (campInfo : List CampInfo) (template : List CampBubble) :
    List CampBubble :=
  applyLoop campApply campInfo 0 template

/-- Embeds `createYaychiFlexMessage` (lines 440-457) on the cloned template's
bubble list. -/
def createYaychiFlexMessage (yaychiInfo : List YaychiRec) (template : List YaychiBubble) :
    List YaychiBubble :=
  applyLoop yaychiApply yaychiInfo 0 template

/-- Modelled from the spec: the static camp flex template (`flex/camp.json`)
is absent from the repository snapshot; the spec describes an ordered list of
bubbles with placeholder text at the composer's fixed paths, three bubbles in
the section-8 example. -/
def campTemplate : List CampBubble :=
  [{ bodyText0 := some "キャンプ場1", footerUri := some "https://example.com/1" },
   { bodyText0 := some "キャンプ場2", footerUri := some "https://example.com/2" },
   { bodyText0 := some "キャンプ場3", footerUri := some "https://example.com/3" }]

/-- Modelled from the spec: the static yaychi flex template
(`flex/yaychi.json`) is absent from the repository snapshot; three placeholder
bubbles with the two extra nested text paths the spec names. -/
def yaychiTemplate : List YaychiBubble :=
  [{ bodyText0 := some "エリア1", spotText := some "スポット1", descText := some "説明1" },
   { bodyText0 := some "エリア2", spotText := some "スポット2", descText := some "説明2" },
   { bodyText0 := some "エリア3", spotText := some "スポット3", descText := some "説明3" }]

/-! Terminal actions and the handler (source lines 36-360). -/

/-- The try-block body of `handleCampInfo` (lines 194-235): search generation,
parsing, the zero-record apology-and-return, flex composition, the two pushes,
detail generation and the detail push. -/
def campTryBody (uid region date conditions : String) : Eff Unit := do
  let content ← extCall (Call.genCall [("user", campSearchPrompt region date conditions)])
  let campInfo := parseResponse content
  if campInfo.length = 0 then
    pushMessage uid campNoInfoMsg
  else
    let _ := createCampFlexMessage campInfo campTemplate
    pushMessage uid campFoundMsg
    pushFlexMessage uid
    let names := String.intercalate "、" (campInfo.map CampInfo.name)
    let detail ← extCall (Call.genCall [("user", campDetailPrompt names)])
    pushMessage uid (jsOr detail campDetailFallback)

/-- Embeds `handleCampInfo` (lines 187-240): immediate acknowledgment reply
(outside the try block), then the guarded try-block body; the catch pushes
the fixed apology. -/
def handleCampInfo (uid replyToken region date conditions : String) : Eff Unit := do
  reply replyToken (campAck region date conditions)
  tryCatchE (campTryBody uid region date conditions) (pushMessage uid campErrorMsg)

/-- The try-block body of `handleYaychiInfo` (lines 248-277). -/
def yaychiTryBody (uid prefecture conditions : String) : Eff Unit := do
  let content ← extCall (Call.genCall [("user", yaychiSearchPrompt prefecture conditions)])
  let yaychiInfo := parseYaychiResponse content
  if yaychiInfo.length = 0 then
    pushMessage uid yaychiNoInfoMsg
  else
    let _ := createYaychiFlexMessage yaychiInfo yaychiTemplate
    pushMessage uid (yaychiFoundMsg prefecture)
    pushFlexMessage uid

/-- Embeds `handleYaychiInfo` (lines 242-282): acknowledgment reply outside
the try block, then the guarded body; the catch pushes the fixed apology. -/
def handleYaychiInfo (uid replyToken prefecture conditions : String) : Eff Unit := do
  reply replyToken (yaychiAck prefecture conditions)
  tryCatchE (yaychiTryBody uid prefecture conditions) (pushMessage uid yaychiErrorMsg)

/-- The `for (const item of items.slice(0, 3))` loop of `handleItemSuggestion`:
one product-search generation call and one push per item, sequentially. -/
def itemRecLoop (uid : String) : List ItemInfo → Eff Unit
  | [] => pure ()
  | item :: rest => do
      let content ← extCall (Call.genCall [("user", itemSearchPrompt item.name)])
      pushMessage uid (itemRecMsg item.name content)
      itemRecLoop uid rest

/-- The try-block body of `handleItemSuggestion` (lines 290-324). -/
def itemTryBody (uid location duration conditions : String) : Eff Unit := do
  let content ← extCall (Call.genCall [("user", itemListPrompt location duration conditions)])
  let items := parseItemResponse content
  if items.length = 0 then
    pushMessage uid itemNoInfoMsg
  else
    let itemList := String.intercalate "\n"
      (items.map fun item => "- " ++ item.name ++ ": " ++ item.description)
    pushMessage uid (itemListMsg itemList)
    itemRecLoop uid (items.take 3)

/-- Embeds `handleItemSuggestion` (lines 284-330): acknowledgment reply
outside the try block, then the guarded body; the catch pushes the fixed
apology. -/
def handleItemSuggestion (uid replyToken location duration conditions : String) : Eff Unit := do
  reply replyToken (itemAck location duration conditions)
  tryCatchE (itemTryBody uid location duration conditions) (pushMessage uid itemErrorMsg)

/-- Embeds `handleGeneralMessage` (lines 332-360): one persona-prompted
generation call answered as the direct reply (with a fixed fallback for empty
content); the catch replies with the fixed error text. -/
def handleGeneralMessage (replyToken text : String) : Eff Unit :=
  tryCatchE (do
      let content ← extCall (Call.genCall [("system", personaMsg), ("user", text)])
      reply replyToken (jsOr content generalFallback))
    (reply replyToken generalErrorMsg)

/-- Embeds `handleStateMessage` (lines 115-185): the switch over the stored
state string. -/
def handleStateMessage (uid replyToken text state : String) : Eff Unit :=
  if state = "awaiting_region_camp" then do
    putStateWithData uid "awaiting_date_camp" { region := some text }
    reply replyToken datePrompt
  else if state = "awaiting_date_camp" then do
    let campData ← getStateData uid
    putStateWithData uid "awaiting_conditions_camp" { region := campData.region, date := some text }
    reply replyToken campCondPrompt
  else if state = "awaiting_conditions_camp" then do
    let campData ← getStateData uid
    clearState uid
    handleCampInfo uid replyToken (jsShow campData.region) (jsShow campData.date) text
  else if state = "awaiting_prefecture_yaychi" then do
    putStateWithData uid "awaiting_conditions_yaychi" { prefecture := some text }
    reply replyToken yaychiCondPrompt
  else if state = "awaiting_conditions_yaychi" then do
    let yaychiData ← getStateData uid
    clearState uid
    handleYaychiInfo uid replyToken (jsShow yaychiData.prefecture) text
  else if state = "awaiting_location_items" then do
    putStateWithData uid "awaiting_duration_items" { location := some text }
    reply replyToken itemDurationPrompt
  else if state = "awaiting_duration_items" then do
    let itemData ← getStateData uid
    putStateWithData uid "awaiting_conditions_items" { location := itemData.location, duration := some text }
    reply replyToken itemCondPrompt
  else if state = "awaiting_conditions_items" then do
    let itemData ← getStateData uid
    clearState uid
    handleItemSuggestion uid replyToken (jsShow itemData.location) (jsShow itemData.duration) text
  else do
    clearState uid
    handleGeneralMessage replyToken text

/-- The HTTP-style result the Lambda handler returns. -/
structure HandlerResult where
  statusCode : Nat
  body : String
deriving DecidableEq, Repr

/-- An inbound webhook event, reduced to the variants the handler inspects:
`follow`, a text message, or anything else (ignored). -/
inductive InEvent where
  | follow (userId : String) (replyToken : String)
  | textMessage (userId : String) (replyToken : String) (text : String)
  | other
deriving DecidableEq, Repr

/-- The no-active-state menu dispatch of the text branch (lines 74-103):
the three trigger phrases persist the flow's first waiting state and send its
fixed prompt; anything else goes to the general message action. -/
def handleMenuMessage (uid replyToken text : String) : Eff HandlerResult :=
  if text = "きゃんぷ場調べ" then do
    putState uid "awaiting_region_camp"
    reply replyToken regionPrompt
    pure { statusCode := 200, body := "OK" }
  else if text = "野営地調べ" then do
    putState uid "awaiting_prefecture_yaychi"
    reply replyToken yaychiPrefPrompt
    pure { statusCode := 200, body := "OK" }
  else if text = "持ち物提案" then do
    putState uid "awaiting_location_items"
    reply replyToken itemLocPrompt
    pure { statusCode := 200, body := "OK" }
  else do
    handleGeneralMessage replyToken text
    pure { statusCode := 200, body := "OK" }

/-- The text-message branch of the handler (lines 66-110): unconditional
`saveUserId`, then the state read, then the menu dispatch or the state switch. -/
def handleTextMessage (uid replyToken text : String) : Eff HandlerResult := do
  saveUserId uid
  let state ← getState uid
  match state with
  | none => handleMenuMessage uid replyToken text
  | some st => do
      handleStateMessage uid replyToken text st
      pure { statusCode := 200, body := "OK" }

/-- Dispatch on the single processed event (lines 57-112). -/
def processEvent : InEvent → Eff HandlerResult
  | InEvent.follow uid replyToken => do
      saveUserId uid
      reply replyToken welcomeText
      pure { statusCode := 200, body := "OK" }
  | InEvent.textMessage uid replyToken text => handleTextMessage uid replyToken text
  | InEvent.other => pure { statusCode := 200, body := "ignored" }

/-- Embeds the main Lambda `handler` (lines 36-113) from the point where the
parsed event list is in hand: an empty list is a no-op success, otherwise
`const [e] = events` destructures the first event and only it is processed. -/
def handler : List InEvent → Eff HandlerResult
  | [] => Eff.pureE { statusCode := 200, body := "no events" }
  | e :: _ => processEvent e

/-- Embeds the `webhook` handler of `src/src/handler.ts` (lines 22-29) from
the point where the events are parsed: `for (const webhookEvent of events)`
replies an echo to every text message event in the batch. -/
def webhookLoop : List InEvent → Eff Unit
  | [] => pure ()
  | ev :: rest => do
      (match ev with
       | InEvent.textMessage _ tk tx => reply tk tx
       | _ => pure ())
      webhookLoop rest

/-- The `webhook` handler itself: processes every event, then returns 200. -/
def webhook (events : List InEvent) : Eff HandlerResult := do
  webhookLoop events
  pure { statusCode := 200, body := "OK" }

/-- A fresh world: empty store, a given outcome script, empty trace. -/
def initWorld (env : List Outcome) : World :=
  { store := fun _ => none, env := env, trace := [] }

/-- A later invocation over the same durable store: the outcome script is
fresh and the trace restarts, only the store persists between invocations. -/
def nextTurn (w : World) (env : List Outcome) : World :=
  { store := w.store, env := env, trace := [] }

/-! Trace predicates used by the ordering and error-handling theorems. -/

/-- Is the call a store write. -/
def isPut : Call → Bool
  | Call.putStore _ _ => true
  | _ => false

/-- Is the call a reply delivery. -/
def isReply : Call → Bool
  | Call.replyCall _ _ => true
  | _ => false

/-- Is the call anything but a store access. -/
def nonStore : Call → Bool
  | Call.putStore _ _ => false
  | Call.getStore _ => false
  | _ => true

/-- Holds of a trace in which no store write occurs at or after the first
reply delivery, i.e. every store write precedes every reply. -/
def noPutAfterReply : List Call → Bool
  | [] => true
  | c :: rest => if isReply c then rest.all (fun x => !(isPut x)) else noPutAfterReply rest

/-- The computation only ever appends calls satisfying `p` to the trace. -/
def TracePred (p : Call → Bool) (m : Eff α) : Prop :=
  ∀ w, ∃ ex, (m w).2.trace = w.trace ++ ex ∧ ex.all p = true

/-- Every store write in the trace of `m`, run from a reply-free trace,
precedes every reply in it. -/
def Npar (m : Eff α) : Prop :=
  ∀ w, w.trace.all (fun c => !(isReply c)) = true →
    noPutAfterReply (m w).2.trace = true

theorem bind_run (m : Eff α) (f : α → Eff β) (w : World) :
    (m >>= f) w = match m w with
      | (Except.ok a, w') => f a w'
      | (Except.error e, w') => (Except.error e, w') := rfl

theorem pure_run (a : α) (w : World) : (pure a : Eff α) w = (Except.ok a, w) := rfl

theorem tryCatch_run (m h : Eff α) (w : World) :
    tryCatchE m h w = match m w with
      | (Except.ok a, w') => (Except.ok a, w')
      | (Except.error _, w') => h w' := rfl

theorem tracePred_pure (p : Call → Bool) (a : α) : TracePred p (pure a : Eff α) :=
  fun w => ⟨[], by simp only [List.append_nil]; rfl, rfl⟩

theorem tracePred_bind {p : Call → Bool} {m : Eff α} {f : α → Eff β}
    (hm : TracePred p m) (hf : ∀ a, TracePred p (f a)) : TracePred p (m >>= f) := by
  intro w
  obtain ⟨e1, h1, hp1⟩ := hm w
  rcases hres : m w with ⟨r, w'⟩
  rw [hres] at h1
  cases r with
  | ok a =>
      obtain ⟨e2, h2, hp2⟩ := hf a w'
      refine ⟨e1 ++ e2, ?_, ?_⟩
      · rw [bind_run, hres]
        simp only
        rw [h2]
        simp only at h1
        rw [h1, List.append_assoc]
      · simp only [List.all_append, hp1, hp2, Bool.and_self]
  | error e =>
      refine ⟨e1, ?_, hp1⟩
      rw [bind_run, hres]
      simpa using h1

theorem tracePred_tryCatch {p : Call → Bool} {m h : Eff α}
    (hm : TracePred p m) (hh : TracePred p h) : TracePred p (tryCatchE m h) := by
  intro w
  obtain ⟨e1, h1, hp1⟩ := hm w
  rcases hres : m w with ⟨r, w'⟩
  rw [hres] at h1
  cases r with
  | ok a => exact ⟨e1, by rw [tryCatch_run, hres]; simpa using h1, hp1⟩
  | error e =>
      obtain ⟨e2, h2, hp2⟩ := hh w'
      refine ⟨e1 ++ e2, ?_, ?_⟩
      · rw [tryCatch_run, hres]
        simp only
        rw [h2]
        simp only at h1
        rw [h1, List.append_assoc]
      · simp only [List.all_append, hp1, hp2, Bool.and_self]

theorem tracePred_ite {p : Call → Bool} {c : Prop} [Decidable c] {m n : Eff α}
    (hm : TracePred p m) (hn : TracePred p n) : TracePred p (if c then m else n) := by
  by_cases h : c
  · simpa [h] using hm
  · simpa [h] using hn

theorem tracePred_extCall {p : Call → Bool} {c : Call} (h : p c = true) :
    TracePred p (extCall c) := by
  intro w
  rcases hp : popOutcome w.env with ⟨o, env'⟩
  cases o with
  | ok content => exact ⟨[c], by simp [extCall, hp], by simp [h]⟩
  | throw => exact ⟨[], by simp [extCall, hp], rfl⟩

theorem tracePred_putItemE {p : Call → Bool} {uid : String} {item : Item}
    (h : p (Call.putStore uid item) = true) : TracePred p (putItemE uid item) :=
  fun w => ⟨[Call.putStore uid item], by simp [putItemE], by simp [h]⟩

theorem tracePred_getState {p : Call → Bool} {uid : String}
    (h : p (Call.getStore uid) = true) : TracePred p (getState uid) :=
  fun w => ⟨[Call.getStore uid], by simp [getState], by simp [h]⟩

theorem tracePred_getStateData {p : Call → Bool} {uid : String}
    (h : p (Call.getStore uid) = true) : TracePred p (getStateData uid) :=
  fun w => ⟨[Call.getStore uid], by simp [getStateData], by simp [h]⟩

theorem tracePred_reply {p : Call → Bool} {tk tx : String}
    (h : p (Call.replyCall tk tx) = true) : TracePred p (reply tk tx) :=
  tracePred_bind (tracePred_extCall h) (fun _ => tracePred_pure p ())

theorem tracePred_pushFlex {p : Call → Bool} {uid : String}
    (h : p (Call.pushFlex uid) = true) : TracePred p (pushFlexMessage uid) :=
  tracePred_bind (tracePred_extCall h) (fun _ => tracePred_pure p ())

theorem tracePred_pushChunks {p : Call → Bool} {uid : String}
    (h : ∀ t, p (Call.pushText uid t) = true) :
    ∀ l, TracePred p (pushChunks uid l)
  | [] => tracePred_pure p ()
  | t :: rest =>
      tracePred_bind (tracePred_extCall (h t)) (fun _ => tracePred_pushChunks h rest)

theorem tracePred_pushMessage {p : Call → Bool} {uid : String}
    (h : ∀ t, p (Call.pushText uid t) = true) (text : String) :
    TracePred p (pushMessage uid text) :=
  tracePred_pushChunks h (chunkChars text.data)

theorem run_bind_ok {m : Eff α} {f : α → Eff β} {w w' : World} {a : α}
    (h : m w = (Except.ok a, w')) : (m >>= f) w = f a w' := by rw [bind_run, h]

theorem run_bind_error {m : Eff α} {f : α → Eff β} {w w' : World}
    (h : m w = (Except.error (), w')) : (m >>= f) w = (Except.error (), w') := by
  rw [bind_run, h]

theorem run_try_ok {m h : Eff α} {w w' : World} {a : α}
    (hm : m w = (Except.ok a, w')) : tryCatchE m h w = (Except.ok a, w') := by
  rw [tryCatch_run, hm]

theorem run_try_error {m h : Eff α} {w w' : World}
    (hm : m w = (Except.error (), w')) : tryCatchE m h w = h w' := by
  rw [tryCatch_run, hm]

theorem nonStore_handleGeneralMessage (tk tx : String) :
    TracePred nonStore (handleGeneralMessage tk tx) := by
  unfold handleGeneralMessage
  apply tracePred_tryCatch
  · exact tracePred_bind (tracePred_extCall rfl) (fun _ => tracePred_reply rfl)
  · exact tracePred_reply rfl

theorem nonStore_campTryBody (uid r d c : String) :
    TracePred nonStore (campTryBody uid r d c) := by
  unfold campTryBody
  apply tracePred_bind (tracePred_extCall rfl)
  intro content
  dsimp only
  apply tracePred_ite
  · exact tracePred_pushMessage (fun _ => rfl) _
  · apply tracePred_bind (tracePred_pushMessage (fun _ => rfl) _)
    intro _
    apply tracePred_bind (tracePred_pushFlex rfl)
    intro _
    apply tracePred_bind (tracePred_extCall rfl)
    intro _
    exact tracePred_pushMessage (fun _ => rfl) _

theorem nonStore_handleCampInfo (uid tk r d c : String) :
    TracePred nonStore (handleCampInfo uid tk r d c) := by
  unfold handleCampInfo
  exact tracePred_bind (tracePred_reply rfl)
    (fun _ => tracePred_tryCatch (nonStore_campTryBody uid r d c)
      (tracePred_pushMessage (fun _ => rfl) _))

theorem nonStore_yaychiTryBody (uid pr c : String) :
    TracePred nonStore (yaychiTryBody uid pr c) := by
  unfold yaychiTryBody
  apply tracePred_bind (tracePred_extCall rfl)
  intro content
  dsimp only
  apply tracePred_ite
  · exact tracePred_pushMessage (fun _ => rfl) _
  · exact tracePred_bind (tracePred_pushMessage (fun _ => rfl) _)
      (fun _ => tracePred_pushFlex rfl)

theorem nonStore_handleYaychiInfo (uid tk pr c : String) :
    TracePred nonStore (handleYaychiInfo uid tk pr c) := by
  unfold handleYaychiInfo
  exact tracePred_bind (tracePred_reply rfl)
    (fun _ => tracePred_tryCatch (nonStore_yaychiTryBody uid pr c)
      (tracePred_pushMessage (fun _ => rfl) _))

theorem nonStore_itemRecLoop (uid : String) :
    ∀ l, TracePred nonStore (itemRecLoop uid l)
  | [] => tracePred_pure _ ()
  | _ :: rest =>
      tracePred_bind (tracePred_extCall rfl)
        (fun _ => tracePred_bind (tracePred_pushMessage (fun _ => rfl) _)
          (fun _ => nonStore_itemRecLoop uid rest))

theorem nonStore_itemTryBody (uid l d c : String) :
    TracePred nonStore (itemTryBody uid l d c) := by
  unfold itemTryBody
  apply tracePred_bind (tracePred_extCall rfl)
  intro content
  dsimp only
  apply tracePred_ite
  · exact tracePred_pushMessage (fun _ => rfl) _
  · exact tracePred_bind (tracePred_pushMessage (fun _ => rfl) _)
      (fun _ => nonStore_itemRecLoop uid _)

theorem nonStore_handleItemSuggestion (uid tk l d c : String) :
    TracePred nonStore (handleItemSuggestion uid tk l d c) := by
  unfold handleItemSuggestion
  exact tracePred_bind (tracePred_reply rfl)
    (fun _ => tracePred_tryCatch (nonStore_itemTryBody uid l d c)
      (tracePred_pushMessage (fun _ => rfl) _))

theorem allImp {p q : α → Bool} (h : ∀ a, p a = true → q a = true) :
    ∀ l : List α, l.all p = true → l.all q = true := by
  intro l hl
  rw [List.all_eq_true] at hl ⊢
  exact fun x hx => h x (hl x hx)

theorem tracePred_mono {p q : Call → Bool} {m : Eff α}
    (h : ∀ c, p c = true → q c = true) (hm : TracePred p m) : TracePred q m := by
  intro w
  obtain ⟨ex, h1, h2⟩ := hm w
  exact ⟨ex, h1, allImp h ex h2⟩

theorem nonStore_noPut : ∀ c, nonStore c = true → (!(isPut c)) = true := by
  intro c
  cases c <;> simp [nonStore, isPut]

theorem noPutAfterReply_of_noPut {l : List Call}
    (h : l.all (fun c => !(isPut c)) = true) : noPutAfterReply l = true := by
  induction l with
  | nil => rfl
  | cons c rest ih =>
      rw [List.all_cons, Bool.and_eq_true] at h
      unfold noPutAfterReply
      by_cases hr : isReply c = true
      · simp [hr, h.2]
      · simp only [Bool.not_eq_true] at hr
        simp [hr, ih h.2]

theorem noPutAfterReply_of_noReply {l : List Call}
    (h : l.all (fun c => !(isReply c)) = true) : noPutAfterReply l = true := by
  induction l with
  | nil => rfl
  | cons c rest ih =>
      rw [List.all_cons, Bool.and_eq_true] at h
      have hc : isReply c = false := by
        cases hres : isReply c
        · rfl
        · rw [hres] at h; simp at h
      unfold noPutAfterReply
      simp [hc, ih h.2]

theorem noPutAfterReply_append {a b : List Call}
    (ha : a.all (fun c => !(isReply c)) = true)
    (hb : b.all (fun c => !(isPut c)) = true) :
    noPutAfterReply (a ++ b) = true := by
  induction a with
  | nil => simpa using noPutAfterReply_of_noPut hb
  | cons c rest ih =>
      rw [List.all_cons, Bool.and_eq_true] at ha
      have hc : isReply c = false := by
        cases hres : isReply c
        · rfl
        · rw [hres] at ha; simp at ha
      show noPutAfterReply (c :: (rest ++ b)) = true
      unfold noPutAfterReply
      simp [hc, ih ha.2]

theorem npar_of_noPut {m : Eff α}
    (hm : TracePred (fun c => !(isPut c)) m) : Npar m := by
  intro w hw
  obtain ⟨ex, h1, h2⟩ := hm w
  rw [h1]
  exact noPutAfterReply_append hw h2

theorem npar_bind_noReply {m : Eff α} {f : α → Eff β}
    (hm : TracePred (fun c => !(isReply c)) m) (hf : ∀ a, Npar (f a)) :
    Npar (m >>= f) := by
  intro w hw
  obtain ⟨e1, h1, hp1⟩ := hm w
  rcases hres : m w with ⟨r, w'⟩
  rw [hres] at h1
  simp only at h1
  have hw' : w'.trace.all (fun c => !(isReply c)) = true := by
    rw [h1, List.all_append, Bool.and_eq_true]
    exact ⟨hw, hp1⟩
  cases r with
  | ok a =>
      rw [run_bind_ok hres]
      exact hf a w' hw'
  | error e =>
      cases e
      rw [run_bind_error hres]
      exact noPutAfterReply_of_noReply hw'

theorem npar_ite {c : Prop} [Decidable c] {m n : Eff α}
    (hm : Npar m) (hn : Npar n) : Npar (if c then m else n) := by
  by_cases h : c
  · simpa [h] using hm
  · simpa [h] using hn

/-- Running the text-message branch always lands in the menu dispatch: the
unconditional `saveUserId` put replaces the whole item with the bare userId
key before `getState` reads it, so the state read yields `none` and the
stored-state switch is never entered. -/
theorem textMessage_alwaysMenu (uid tk tx : String) (w : World) :
    handleTextMessage uid tk tx w =
      handleMenuMessage uid tk tx
        { store := fun u => if u = uid then some {} else w.store u,
          env := w.env,
          trace := w.trace ++ [Call.putStore uid {}, Call.getStore uid] } := by
  unfold handleTextMessage
  rw [run_bind_ok (show saveUserId uid w = (Except.ok (),
      { store := fun u => if u = uid then some {} else w.store u,
        env := w.env, trace := w.trace ++ [Call.putStore uid {}] }) from rfl)]
  rw [run_bind_ok (show getState uid
      { store := fun u => if u = uid then some ({} : Item) else w.store u,
        env := w.env, trace := w.trace ++ [Call.putStore uid {}] } = (Except.ok none,
      { store := fun u => if u = uid then some {} else w.store u,
        env := w.env, trace := w.trace ++ [Call.putStore uid {}, Call.getStore uid] }) from ?_)]
  case _ =>
    unfold getState
    simp [List.append_assoc]

theorem noReply_putItemE (uid : String) (item : Item) :
    TracePred (fun c => !(isReply c)) (putItemE uid item) := tracePred_putItemE rfl

theorem noPut_reply (tk tx : String) :
    TracePred (fun c => !(isPut c)) (reply tk tx) := tracePred_reply rfl

theorem npar_handleStateMessage (uid tk tx st : String) :
    Npar (handleStateMessage uid tk tx st) := by
  unfold handleStateMessage
  apply npar_ite
  · exact npar_bind_noReply (noReply_putItemE uid _) (fun _ => npar_of_noPut (noPut_reply tk _))
  · apply npar_ite
    · apply npar_bind_noReply (tracePred_getStateData rfl)
      intro campData
      exact npar_bind_noReply (noReply_putItemE uid _) (fun _ => npar_of_noPut (noPut_reply tk _))
    · apply npar_ite
      · apply npar_bind_noReply (tracePred_getStateData rfl)
        intro campData
        apply npar_bind_noReply (noReply_putItemE uid _)
        intro _
        exact npar_of_noPut (tracePred_mono nonStore_noPut (nonStore_handleCampInfo uid tk _ _ tx))
      · apply npar_ite
        · exact npar_bind_noReply (noReply_putItemE uid _)
            (fun _ => npar_of_noPut (noPut_reply tk _))
        · apply npar_ite
          · apply npar_bind_noReply (tracePred_getStateData rfl)
            intro yaychiData
            apply npar_bind_noReply (noReply_putItemE uid _)
            intro _
            exact npar_of_noPut
              (tracePred_mono nonStore_noPut (nonStore_handleYaychiInfo uid tk _ tx))
          · apply npar_ite
            · exact npar_bind_noReply (noReply_putItemE uid _)
                (fun _ => npar_of_noPut (noPut_reply tk _))
            · apply npar_ite
              · apply npar_bind_noReply (tracePred_getStateData rfl)
                intro itemData
                exact npar_bind_noReply (noReply_putItemE uid _)
                  (fun _ => npar_of_noPut (noPut_reply tk _))
              · apply npar_ite
                · apply npar_bind_noReply (tracePred_getStateData rfl)
                  intro itemData
                  apply npar_bind_noReply (noReply_putItemE uid _)
                  intro _
                  exact npar_of_noPut
                    (tracePred_mono nonStore_noPut (nonStore_handleItemSuggestion uid tk _ _ tx))
                · apply npar_bind_noReply (noReply_putItemE uid _)
                  intro _
                  exact npar_of_noPut
                    (tracePred_mono nonStore_noPut (nonStore_handleGeneralMessage tk tx))

theorem npar_handleMenuMessage (uid tk tx : String) :
    Npar (handleMenuMessage uid tk tx) := by
  unfold handleMenuMessage
  apply npar_ite
  · exact npar_bind_noReply (noReply_putItemE uid _)
      (fun _ => npar_of_noPut (tracePred_bind (noPut_reply tk _) (fun _ => tracePred_pure _ _)))
  · apply npar_ite
    · exact npar_bind_noReply (noReply_putItemE uid _)
        (fun _ => npar_of_noPut (tracePred_bind (noPut_reply tk _) (fun _ => tracePred_pure _ _)))
    · apply npar_ite
      · exact npar_bind_noReply (noReply_putItemE uid _)
          (fun _ => npar_of_noPut (tracePred_bind (noPut_reply tk _) (fun _ => tracePred_pure _ _)))
      · exact npar_of_noPut
          (tracePred_bind (tracePred_mono nonStore_noPut (nonStore_handleGeneralMessage tk tx))
            (fun _ => tracePred_pure _ _))

theorem applyLoop_length (f : β → α → β) :
    ∀ (rs : List α) (n : Nat) (t : List β), (applyLoop f rs n t).length = t.length := by
  intro rs
  induction rs with
  | nil => intro n t; rfl
  | cons r rest ih =>
      intro n t
      show (applyLoop f rest (n + 1) _).length = t.length
      rw [ih]
      split <;> simp [List.length_set]

theorem applyLoop_get? (f : β → α → β) :
    ∀ (rs : List α) (n : Nat) (t : List β) (i : Nat),
      (applyLoop f rs n t).get? i =
        if n ≤ i then
          match rs.get? (i - n), t.get? i with
          | some r, some b => some (f b r)
          | _, _ => t.get? i
        else t.get? i := by
  intro rs
  induction rs with
  | nil =>
      intro n t i
      show t.get? i = _
      cases hti : t.get? i <;> by_cases h : n ≤ i <;> simp [h, hti]
  | cons r rest ih =>
      intro n t i
      show (applyLoop f rest (n + 1) _).get? i = _
      rw [ih]
      rcases Nat.lt_trichotomy i n with hlt | heq | hgt
      · -- i < n : untouched on both sides
        have h1 : ¬ (n + 1 ≤ i) := by omega
        have h2 : ¬ (n ≤ i) := by omega
        simp only [h1, h2, if_neg, not_false_iff]
        split
        · next h =>
            rw [List.get?_set_ne _ _ (by omega : n ≠ i)]
        · rfl
      · -- i = n : this step's overwrite
        subst heq
        have h1 : ¬ (i + 1 ≤ i) := by omega
        have h2 : i ≤ i := le_refl i
        simp only [h1, h2, if_neg, if_pos, not_false_iff, Nat.sub_self]
        split
        · next h =>
            rw [List.get?_set_eq, List.get?_eq_get h]
            simp [List.get?_eq_get h]
        · next h =>
            have hnone : t.get? i = none := List.get?_len_le (by omega)
            rw [hnone]
            rfl
      · -- n < i : handled by the recursive suffix
        have h1 : n + 1 ≤ i := by omega
        have h2 : n ≤ i := by omega
        simp only [h1, h2, if_pos]
        have hidx : i - n = (i - (n + 1)) + 1 := by omega
        have hrest : rest.get? (i - (n + 1)) = (r :: rest).get? (i - n) := by
          rw [hidx]; rfl
        rw [hrest]
        have hset : ∀ t' : List β, t' = (if h : n < t.length then
              t.set n (f (t.get ⟨n, h⟩) r) else t) → t'.get? i = t.get? i := by
          intro t' ht'
          subst ht'
          split
          · exact List.get?_set_ne _ _ (by omega : n ≠ i)
          · rfl
        rw [hset _ rfl]

/-- C4 counterexample: the CampInfo and ItemInfo parsers are not capped at 3
records: four repeated `1.` lines yield four CampInfo records and four
numbered colon lines yield four ItemInfo records, so the claimed cap fails. -/
theorem parsers_exceed_cap_counterexample :
    (parseResponse "1. A\n1. B\n1. C\n1. D").length = 4
    ∧ (parseItemResponse "1. a: w\n2. b: x\n3. c: y\n4. d: z").length = 4
    ∧ ¬ ((parseResponse "1. A\n1. B\n1. C\n1. D").length ≤ 3) := by decide

/-- C5 counterexample: on the numbered line `1. Tent: keeps: dry`, which has
two colons, the JS `split(':', 2)` keeps only the first two parts, so the
produced description is `keeps`, not `keeps: dry` as the claim (everything
after the first colon) asserts. -/
theorem item_split_truncates_counterexample :
    parseItemResponse "1. Tent: keeps: dry" = [{ name := "Tent", description := "keeps" }]
    ∧ parseItemResponse "1. Tent: keeps: dry" ≠ [{ name := "Tent", description := "keeps: dry" }] := by
  decide

/-- C10: on the input `1. 札幌市`, a numbered line followed by no label
lines, the yaychi parser emits a record whose `spot` and `description` fields
are absent (undefined at runtime despite the declared `YaychiInfo` interface
marking them required), and the composer writes those undefined values into
the template's text slots, erasing the string placeholders. -/
theorem yaychi_record_missing_optional_fields :
    parseYaychiResponse "1. 札幌市" = [{ name := some "札幌市", spot := none, description := none }]
    ∧ (createYaychiFlexMessage (parseYaychiResponse "1. 札幌市") yaychiTemplate).get? 0 =
        some { bodyText0 := some "札幌市", spotText := none, descText := none }
    ∧ yaychiTemplate.all (fun b => b.spotText.isSome && b.descText.isSome) = true := by decide

/-- C6 counterexample: the initial acknowledgment reply of `handleCampInfo`
sits outside the try block, so when that delivery throws, the exception
propagates out of the terminal action and no apology is pushed. -/
theorem camp_ack_failure_propagates_counterexample :
    (handleCampInfo "U" "T" "北海道" "3/1" "ペットOK" (initWorld [Outcome.throw])).1
      = Except.error ()
    ∧ (handleCampInfo "U" "T" "北海道" "3/1" "ペットOK" (initWorld [Outcome.throw])).2.trace
      = [] := ⟨rfl, rfl⟩

/-- C4 amended: only the BivouacInfo/Yaychi parser caps its output at 3
records (`slice(0, 3)`); the CampInfo parser emits one record per line
starting with `1.`, `2.` or `3.` (exceeding 3 when prefixes repeat) and the
ItemInfo parser emits one record per numbered colon line, with no cap. -/
theorem only_yaychi_parser_capped :
    (∀ s : String, (parseYaychiResponse s).length ≤ 3)
    ∧ (parseResponse "1. A\n1. B\n1. C\n1. D").length = 4
    ∧ (parseItemResponse "1. a: w\n2. b: x\n3. c: y\n4. d: z").length = 4 := by
  refine ⟨?_, by decide, by decide⟩
  intro s
  unfold parseYaychiResponse
  dsimp only
  rw [List.length_take]
  exact Nat.min_le_left _ _

theorem parse_item_go (lines : List String) (acc : List ItemInfo) :
    lines.foldl (fun items line =>
      let trimmedLine := jsTrim line
      if startsWithNumberDot trimmedLine then
        match (jsSplit trimmedLine ":").take 2 with
        | [p0, p1] => items ++ [{ name := jsTrim (stripNumberDot p0), description := jsTrim p1 }]
        | _ => items
      else items) acc = acc ++ (lines.map itemLineRecords).flatten := by
  induction lines generalizing acc with
  | nil => simp
  | cons l rest ih =>
      rw [List.foldl_cons, ih, List.map_cons, List.flatten_cons, ← List.append_assoc]
      congr 1
      unfold itemLineRecords
      dsimp only
      by_cases h : startsWithNumberDot (jsTrim l) = true
      · simp only [h, if_true]
        rcases h2 : (jsSplit (jsTrim l) ":").take 2 with _ | ⟨p0, _ | ⟨p1, _ | _⟩⟩ <;> simp
      · simp [h]

/-- C5 amended: each line is handled independently (the parse is the
concatenation of per-line records); a numbered line is split by
`split(':', 2)`, so `name` is the prefix-stripped text before the first colon
and `description` is the trimmed text between the first and second colon
(anything after a second colon is discarded); `1. Tent: keeps you dry`
yields `{Tent, keeps you dry}`, a colon-free numbered line yields nothing. -/
theorem item_parser_first_colon_amended :
    (∀ s : String, parseItemResponse s = ((jsSplit s "\n").map itemLineRecords).flatten)
    ∧ parseItemResponse "1. Tent: keeps you dry" = [{ name := "Tent", description := "keeps you dry" }]
    ∧ parseItemResponse "1. Tent keeps you dry" = []
    ∧ parseItemResponse "1. Tent: keeps: dry" = [{ name := "Tent", description := "keeps" }] := by
  refine ⟨?_, by decide, by decide, by decide⟩
  intro s
  unfold parseItemResponse
  rw [parse_item_go]
  simp

theorem anyTrace_handleGeneralMessage (tk tx : String) :
    TracePred (fun _ => true) (handleGeneralMessage tk tx) :=
  tracePred_mono (fun _ _ => rfl) (nonStore_handleGeneralMessage tk tx)

theorem anyTrace_handleMenuMessage (uid tk tx : String) :
    TracePred (fun _ => true) (handleMenuMessage uid tk tx) := by
  unfold handleMenuMessage
  apply tracePred_ite
  · exact tracePred_bind (tracePred_putItemE rfl)
      (fun _ => tracePred_bind (tracePred_reply rfl) (fun _ => tracePred_pure _ _))
  · apply tracePred_ite
    · exact tracePred_bind (tracePred_putItemE rfl)
        (fun _ => tracePred_bind (tracePred_reply rfl) (fun _ => tracePred_pure _ _))
    · apply tracePred_ite
      · exact tracePred_bind (tracePred_putItemE rfl)
          (fun _ => tracePred_bind (tracePred_reply rfl) (fun _ => tracePred_pure _ _))
      · exact tracePred_bind (anyTrace_handleGeneralMessage tk tx)
          (fun _ => tracePred_pure _ _)

/-- C2: on every inbound text message the handler first performs
`saveUserId`, a full-item put whose item holds only the userId key; under
PutItem replace semantics this erases any stored `state` and `data`, so the
`getState` read that follows in the same turn returns absent state and the
turn always takes the no-state menu path; the turn's trace starts with that
put followed by the read. -/
theorem save_user_id_erases_state_before_read :
    ∀ (w : World) (uid tk tx : String),
      (saveUserId uid w).2.store uid = some { state := none, data := none }
      ∧ (getState uid (saveUserId uid w).2).1 = Except.ok none
      ∧ handleTextMessage uid tk tx w =
          handleMenuMessage uid tk tx
            { store := fun u => if u = uid then some {} else w.store u,
              env := w.env,
              trace := w.trace ++ [Call.putStore uid {}, Call.getStore uid] }
      ∧ (w.trace = [] →
          ((handleTextMessage uid tk tx) w).2.trace.take 2 =
            [Call.putStore uid {}, Call.getStore uid]) := by
  intro w uid tk tx
  refine ⟨by simp [saveUserId, putItemE], by simp [saveUserId, putItemE, getState],
    textMessage_alwaysMenu uid tk tx w, ?_⟩
  intro hw
  rw [textMessage_alwaysMenu]
  obtain ⟨ex, hex, _⟩ := anyTrace_handleMenuMessage uid tk tx
      { store := fun u => if u = uid then some {} else w.store u,
        env := w.env,
        trace := w.trace ++ [Call.putStore uid {}, Call.getStore uid] }
  rw [hex]
  dsimp only
  rw [hw]
  show ([Call.putStore uid {}, Call.getStore uid] ++ ex).take 2 = _
  exact List.take_left [Call.putStore uid {}, Call.getStore uid] ex

/-- Witness for C2 at a concrete world and message. -/
theorem save_user_id_erases_state_before_read_witness :
    ((handleTextMessage "U" "T" "hi") (initWorld [Outcome.ok "a", Outcome.ok ""])).2.trace.take 2 =
      [Call.putStore "U" {}, Call.getStore "U"] :=
  (save_user_id_erases_state_before_read (initWorld [Outcome.ok "a", Outcome.ok ""]) "U" "T" "hi").2.2.2 rfl

/-- C3 amended: a follow event records the user id and sends the fixed
welcome reply, but the user-id write is a full-item put, so any previously
stored conversation state and collected data are cleared rather than left
unchanged. -/
theorem follow_records_user_and_replies :
    ∀ (w : World) (uid tk : String),
      (popOutcome w.env).1 ≠ Outcome.throw →
      (processEvent (InEvent.follow uid tk) w).1 =
        Except.ok { statusCode := 200, body := "OK" }
      ∧ (processEvent (InEvent.follow uid tk) w).2.store uid =
          some { state := none, data := none }
      ∧ (processEvent (InEvent.follow uid tk) w).2.trace =
          w.trace ++ [Call.putStore uid {}, Call.replyCall tk welcomeText] := by
  intro w uid tk h
  rcases hpop : popOutcome w.env with ⟨o, env'⟩
  cases o with
  | throw => rw [hpop] at h; simp at h
  | ok c =>
      have hext : extCall (Call.replyCall tk welcomeText)
          { store := fun u => if u = uid then some {} else w.store u,
            env := w.env, trace := w.trace ++ [Call.putStore uid {}] } =
          (Except.ok c,
           { store := fun u => if u = uid then some {} else w.store u,
             env := env',
             trace := (w.trace ++ [Call.putStore uid {}]) ++ [Call.replyCall tk welcomeText] }) := by
        simp [extCall, hpop]
      have hrun : processEvent (InEvent.follow uid tk) w =
          (Except.ok { statusCode := 200, body := "OK" },
           { store := fun u => if u = uid then some {} else w.store u,
             env := env',
             trace := (w.trace ++ [Call.putStore uid {}]) ++ [Call.replyCall tk welcomeText] }) := by
        show (saveUserId uid >>= fun _ => reply tk welcomeText >>= fun _ =>
          pure ({ statusCode := 200, body := "OK" } : HandlerResult)) w = _
        rw [run_bind_ok (show saveUserId uid w = (Except.ok (),
            { store := fun u => if u = uid then some {} else w.store u,
              env := w.env, trace := w.trace ++ [Call.putStore uid {}] }) from rfl)]
        rw [run_bind_ok (show reply tk welcomeText _ = _ from
          run_bind_ok (f := fun _ => pure ()) hext)]
        rfl
      rw [hrun]
      refine ⟨rfl, by simp, by simp [List.append_assoc]⟩

/-- Witness for the amended C3 at a concrete world. -/
theorem follow_records_user_and_replies_witness :
    (processEvent (InEvent.follow "U" "T") (initWorld [Outcome.ok ""])).1 =
      Except.ok { statusCode := 200, body := "OK" }
    ∧ (processEvent (InEvent.follow "U" "T") (initWorld [Outcome.ok ""])).2.store "U" =
        some { state := none, data := none }
    ∧ (processEvent (InEvent.follow "U" "T") (initWorld [Outcome.ok ""])).2.trace =
        (initWorld [Outcome.ok ""]).trace ++
          [Call.putStore "U" {}, Call.replyCall "T" welcomeText] :=
  follow_records_user_and_replies (initWorld [Outcome.ok ""]) "U" "T" (by decide)

/-- C7 amended: the main Lambda handler processes only the first event of a
non-empty batch (its result is independent of the remaining events), but the
separate `webhook` handler of `src/src/handler.ts` iterates over the whole
batch and replies to every text message event in it. -/
theorem handler_first_event_and_webhook_loop :
    (∀ (e : InEvent) (rest : List InEvent) (w : World), handler (e :: rest) w = handler [e] w)
    ∧ (webhook [InEvent.textMessage "U1" "T1" "hello", InEvent.textMessage "U2" "T2" "world"]
        (initWorld [Outcome.ok "", Outcome.ok ""])).2.trace =
      [Call.replyCall "T1" "hello", Call.replyCall "T2" "world"] :=
  ⟨fun _ _ _ => rfl, by decide⟩

/-- C8: each composer overwrites the designated fields of the i-th bubble
with the i-th record's fields exactly when both exist: the output has the
template's length, every index at or beyond the record count keeps the
original bubble unchanged, records beyond the bubble count are dropped, and
the per-bubble overwrite writes the record's name (and spot/description for
yaychi) into the designated text slots. -/
theorem composers_overwrite_pointwise :
    (∀ (info : List CampInfo) (template : List CampBubble),
        (createCampFlexMessage info template).length = template.length
      ∧ ∀ i : Nat, (createCampFlexMessage info template).get? i =
          match info.get? i, template.get? i with
          | some r, some b => some (campApply b r)
          | _, _ => template.get? i)
    ∧ (∀ (info : List YaychiRec) (template : List YaychiBubble),
        (createYaychiFlexMessage info template).length = template.length
      ∧ ∀ i : Nat, (createYaychiFlexMessage info template).get? i =
          match info.get? i, template.get? i with
          | some r, some b => some (yaychiApply b r)
          | _, _ => template.get? i)
    ∧ (∀ (b : CampBubble) (r : CampInfo), (campApply b r).bodyText0 = some r.name)
    ∧ (∀ (b : YaychiBubble) (r : YaychiRec),
        (yaychiApply b r).bodyText0 = r.name ∧ (yaychiApply b r).spotText = r.spot
        ∧ (yaychiApply b r).descText = r.description) := by
  refine ⟨?_, ?_, ?_, ?_⟩
  · intro info template
    refine ⟨applyLoop_length campApply info 0 template, ?_⟩
    intro i
    rw [show createCampFlexMessage info template = applyLoop campApply info 0 template from rfl,
      applyLoop_get?]
    simp only [Nat.zero_le, if_pos, Nat.sub_zero]
    rcases info.get? i with _ | r <;> rcases template.get? i with _ | b <;> rfl
  · intro info template
    refine ⟨applyLoop_length yaychiApply info 0 template, ?_⟩
    intro i
    rw [show createYaychiFlexMessage info template = applyLoop yaychiApply info 0 template from rfl,
      applyLoop_get?]
    simp only [Nat.zero_le, if_pos, Nat.sub_zero]
    rcases info.get? i with _ | r <;> rcases template.get? i with _ | b <;> rfl
  · intro b r
    unfold campApply
    dsimp only
    split <;> rfl
  · intro b r
    exact ⟨rfl, rfl, rfl⟩

/-- C9: in every branch of a text-message turn, every store write (state
persistence or clearing) precedes every reply delivery in the turn's trace;
this holds for the full text-message turn and for every branch of the
stored-state switch `handleStateMessage`. -/
theorem state_write_precedes_reply :
    (∀ (uid tk tx : String) (w : World), w.trace = [] →
        noPutAfterReply ((handleTextMessage uid tk tx) w).2.trace = true)
    ∧ (∀ (uid tk tx st : String) (w : World), w.trace = [] →
        noPutAfterReply ((handleStateMessage uid tk tx st) w).2.trace = true) := by
  constructor
  · intro uid tk tx w hw
    rw [textMessage_alwaysMenu]
    apply npar_handleMenuMessage
    simp [hw, isReply]
  · intro uid tk tx st w hw
    apply npar_handleStateMessage
    simp [hw]

/-- Witness for C9 at a concrete trigger-phrase turn. -/
theorem state_write_precedes_reply_witness :
    noPutAfterReply
      ((handleTextMessage "U" "T" "きゃんぷ場調べ") (initWorld [Outcome.ok ""])).2.trace = true :=
  state_write_precedes_reply.1 "U" "T" "きゃんぷ場調べ" (initWorld [Outcome.ok ""]) rfl

/-- C1: evaluation of the camp flow at the claimed scenario. Turn 1 (no
state, trigger `きゃんぷ場調べ`) stores `awaiting_region_camp` and replies
with the region prompt as claimed; but in turn 2 the unconditional
`saveUserId` full put erases the stored state before the read, so `Tokyo` is
treated as a general message: no `awaiting_date_camp` state, no stored
region, and the reply comes from the persona generation call instead of the
date prompt. The multi-turn progression the claim (and spec section 8)
describes never happens. -/
theorem camp_flow_stalls_after_trigger :
    (let w1 := (processEvent (InEvent.textMessage "U" "T1" "きゃんぷ場調べ")
        (initWorld [Outcome.ok ""])).2
     let w2 := (processEvent (InEvent.textMessage "U" "T2" "Tokyo")
        (nextTurn w1 [Outcome.ok "answer", Outcome.ok ""])).2
     w1.store "U" = some { state := some "awaiting_region_camp" }
     ∧ w1.trace = [Call.putStore "U" {}, Call.getStore "U",
          Call.putStore "U" { state := some "awaiting_region_camp" },
          Call.replyCall "T1" regionPrompt]
     ∧ w2.store "U" = some { state := none, data := none }
     ∧ w2.trace = [Call.putStore "U" {}, Call.getStore "U",
          Call.genCall [("system", personaMsg), ("user", "Tokyo")],
          Call.replyCall "T2" "answer"]) := by decide

/-- C3 counterexample: a follow event for a user whose stored item has
`state = awaiting_region_camp` and collected region data leaves the store
with neither state nor data: the follow path does modify the stored
conversation state, contrary to the claim. -/
theorem follow_clears_state_counterexample :
    (let w : World :=
        { store := fun u => if u = "U" then
            some { state := some "awaiting_region_camp", data := some { region := some "Tokyo" } }
          else none,
          env := [Outcome.ok ""], trace := [] }
     let w' := (processEvent (InEvent.follow "U" "T") w).2
     ((w.store "U").bind Item.state = some "awaiting_region_camp")
     ∧ ((w.store "U").bind Item.data = some { region := some "Tokyo" })
     ∧ (w'.store "U").bind Item.state = none
     ∧ (w'.store "U").bind Item.data = none) := by decide

/-- C7 counterexample: the `webhook` handler of `src/src/handler.ts`, given
a two-event batch, replies to both events; the second event of the batch
causes a reply, so it is not silently ignored. -/
theorem webhook_replies_to_second_event_counterexample :
    (webhook [InEvent.textMessage "U1" "T1" "hello", InEvent.textMessage "U2" "T2" "world"]
        (initWorld [Outcome.ok "", Outcome.ok ""])).2.trace =
      [Call.replyCall "T1" "hello", Call.replyCall "T2" "world"]
    ∧ Call.replyCall "T2" "world" ∈
      (webhook [InEvent.textMessage "U1" "T1" "hello", InEvent.textMessage "U2" "T2" "world"]
        (initWorld [Outcome.ok "", Outcome.ok ""])).2.trace := by decide

theorem pushMessage_single_chunk {t : String} (hc : chunkChars t.data = [t])
    (uid : String) (w : World) :
    ((popOutcome w.env).1 = Outcome.throw →
       pushMessage uid t w = (Except.error (), { w with env := (popOutcome w.env).2 }))
    ∧ (∀ c, (popOutcome w.env).1 = Outcome.ok c →
       pushMessage uid t w =
         (Except.ok (), { w with
            env := (popOutcome w.env).2,
            trace := w.trace ++ [Call.pushText uid t] })) := by
  constructor
  · intro h
    rcases hpop : popOutcome w.env with ⟨o, env'⟩
    rw [hpop] at h
    dsimp only at h
    subst h
    show pushChunks uid (chunkChars t.data) w = _
    rw [hc]
    show (extCall (Call.pushText uid t) >>= fun _ => pushChunks uid []) w = _
    rw [run_bind_error (show extCall (Call.pushText uid t) w =
      (Except.error (), { w with env := env' }) from by simp [extCall, hpop])]
  · intro c h
    rcases hpop : popOutcome w.env with ⟨o, env'⟩
    rw [hpop] at h
    dsimp only at h
    subst h
    show pushChunks uid (chunkChars t.data) w = _
    rw [hc]
    show (extCall (Call.pushText uid t) >>= fun _ => pushChunks uid []) w = _
    rw [run_bind_ok (show extCall (Call.pushText uid t) w =
      (Except.ok c, { w with env := env', trace := w.trace ++ [Call.pushText uid t] })
      from by simp [extCall, hpop])]
    rfl

theorem guarded_run {tk a : String} {B H : Eff Unit} (w : World) :
    ((popOutcome w.env).1 = Outcome.throw →
      (reply tk a >>= fun _ => tryCatchE B H) w
        = (Except.error (), { w with env := (popOutcome w.env).2 }))
    ∧ (∀ c, (popOutcome w.env).1 = Outcome.ok c →
      (reply tk a >>= fun _ => tryCatchE B H) w
        = tryCatchE B H { w with
            env := (popOutcome w.env).2,
            trace := w.trace ++ [Call.replyCall tk a] }) := by
  constructor
  · intro h
    rcases hpop : popOutcome w.env with ⟨o, env'⟩
    rw [hpop] at h
    dsimp only at h
    subst h
    have hreply : reply tk a w = (Except.error (), { w with env := env' }) := by
      show (extCall (Call.replyCall tk a) >>= fun _ => pure ()) w = _
      rw [run_bind_error (show extCall (Call.replyCall tk a) w =
        (Except.error (), { w with env := env' }) from by simp [extCall, hpop])]
    rw [run_bind_error hreply]
  · intro c h
    rcases hpop : popOutcome w.env with ⟨o, env'⟩
    rw [hpop] at h
    dsimp only at h
    subst h
    have hreply : reply tk a w =
        (Except.ok (),
         { w with env := env', trace := w.trace ++ [Call.replyCall tk a] }) := by
      show (extCall (Call.replyCall tk a) >>= fun _ => pure ()) w = _
      rw [run_bind_ok (show extCall (Call.replyCall tk a) w =
        (Except.ok c, { w with env := env', trace := w.trace ++ [Call.replyCall tk a] })
        from by simp [extCall, hpop])]
      rfl
    rw [run_bind_ok hreply]

/-- C6 amended: within each flow's terminal action, any exception raised
inside the try block is caught there and the action's entire remaining
behavior is the single apology push, while the initial acknowledgment reply
lies outside the try block, so a delivery failure there propagates out of the
action with no apology. Universally over worlds and outcome scripts, for each
of the three actions: (a) if the acknowledgment delivery throws, the action
propagates the exception unchanged; (b) if the acknowledgment succeeds and
the try-block body throws at any point, the action equals exactly the apology
push run from the body's failure world; (c) if the body completes, no apology
is pushed; and (d) each apology text fits in one chunk, so the apology push
is exactly one pushed message when its delivery succeeds and itself
propagates when it throws. -/
theorem terminal_actions_guard_pipeline :
    (∀ (w : World) (uid tk r d c : String),
        ((popOutcome w.env).1 = Outcome.throw →
          handleCampInfo uid tk r d c w
            = (Except.error (), { w with env := (popOutcome w.env).2 }))
      ∧ (∀ ct w₂, (popOutcome w.env).1 = Outcome.ok ct →
          campTryBody uid r d c
              { w with
                env := (popOutcome w.env).2,
                trace := w.trace ++ [Call.replyCall tk (campAck r d c)] }
            = (Except.error (), w₂) →
          handleCampInfo uid tk r d c w = pushMessage uid campErrorMsg w₂)
      ∧ (∀ ct w₂, (popOutcome w.env).1 = Outcome.ok ct →
          campTryBody uid r d c
              { w with
                env := (popOutcome w.env).2,
                trace := w.trace ++ [Call.replyCall tk (campAck r d c)] }
            = (Except.ok (), w₂) →
          handleCampInfo uid tk r d c w = (Except.ok (), w₂)))
    ∧ (∀ (w : World) (uid tk pr c : String),
        ((popOutcome w.env).1 = Outcome.throw →
          handleYaychiInfo uid tk pr c w
            = (Except.error (), { w with env := (popOutcome w.env).2 }))
      ∧ (∀ ct w₂, (popOutcome w.env).1 = Outcome.ok ct →
          yaychiTryBody uid pr c
              { w with
                env := (popOutcome w.env).2,
                trace := w.trace ++ [Call.replyCall tk (yaychiAck pr c)] }
            = (Except.error (), w₂) →
          handleYaychiInfo uid tk pr c w = pushMessage uid yaychiErrorMsg w₂)
      ∧ (∀ ct w₂, (popOutcome w.env).1 = Outcome.ok ct →
          yaychiTryBody uid pr c
              { w with
                env := (popOutcome w.env).2,
                trace := w.trace ++ [Call.replyCall tk (yaychiAck pr c)] }
            = (Except.ok (), w₂) →
          handleYaychiInfo uid tk pr c w = (Except.ok (), w₂)))
    ∧ (∀ (w : World) (uid tk l d c : String),
        ((popOutcome w.env).1 = Outcome.throw →
          handleItemSuggestion uid tk l d c w
            = (Except.error (), { w with env := (popOutcome w.env).2 }))
      ∧ (∀ ct w₂, (popOutcome w.env).1 = Outcome.ok ct →
          itemTryBody uid l d c
              { w with
                env := (popOutcome w.env).2,
                trace := w.trace ++ [Call.replyCall tk (itemAck l d c)] }
            = (Except.error (), w₂) →
          handleItemSuggestion uid tk l d c w = pushMessage uid itemErrorMsg w₂)
      ∧ (∀ ct w₂, (popOutcome w.env).1 = Outcome.ok ct →
          itemTryBody uid l d c
              { w with
                env := (popOutcome w.env).2,
                trace := w.trace ++ [Call.replyCall tk (itemAck l d c)] }
            = (Except.ok (), w₂) →
          handleItemSuggestion uid tk l d c w = (Except.ok (), w₂)))
    ∧ (∀ (uid : String) (w : World),
        ((popOutcome w.env).1 = Outcome.throw →
          pushMessage uid campErrorMsg w
            = (Except.error (), { w with env := (popOutcome w.env).2 })
          ∧ pushMessage uid yaychiErrorMsg w
            = (Except.error (), { w with env := (popOutcome w.env).2 })
          ∧ pushMessage uid itemErrorMsg w
            = (Except.error (), { w with env := (popOutcome w.env).2 }))
      ∧ (∀ ct, (popOutcome w.env).1 = Outcome.ok ct →
          pushMessage uid campErrorMsg w
            = (Except.ok (), { w with
                env := (popOutcome w.env).2,
                trace := w.trace ++ [Call.pushText uid campErrorMsg] })
          ∧ pushMessage uid yaychiErrorMsg w
            = (Except.ok (), { w with
                env := (popOutcome w.env).2,
                trace := w.trace ++ [Call.pushText uid yaychiErrorMsg] })
          ∧ pushMessage uid itemErrorMsg w
            = (Except.ok (), { w with
                env := (popOutcome w.env).2,
                trace := w.trace ++ [Call.pushText uid itemErrorMsg] }))) := by
  refine ⟨?_, ?_, ?_, ?_⟩
  · intro w uid tk r d c
    refine ⟨?_, ?_, ?_⟩
    · intro h
      exact (guarded_run (B := campTryBody uid r d c)
        (H := pushMessage uid campErrorMsg) w).1 h
    · intro ct w₂ h hbody
      show (reply tk (campAck r d c) >>= fun _ =>
        tryCatchE (campTryBody uid r d c) (pushMessage uid campErrorMsg)) w = _
      rw [(guarded_run w).2 ct h]
      exact run_try_error hbody
    · intro ct w₂ h hbody
      show (reply tk (campAck r d c) >>= fun _ =>
        tryCatchE (campTryBody uid r d c) (pushMessage uid campErrorMsg)) w = _
      rw [(guarded_run w).2 ct h]
      exact run_try_ok hbody
  · intro w uid tk pr c
    refine ⟨?_, ?_, ?_⟩
    · intro h
      exact (guarded_run (B := yaychiTryBody uid pr c)
        (H := pushMessage uid yaychiErrorMsg) w).1 h
    · intro ct w₂ h hbody
      show (reply tk (yaychiAck pr c) >>= fun _ =>
        tryCatchE (yaychiTryBody uid pr c) (pushMessage uid yaychiErrorMsg)) w = _
      rw [(guarded_run w).2 ct h]
      exact run_try_error hbody
    · intro ct w₂ h hbody
      show (reply tk (yaychiAck pr c) >>= fun _ =>
        tryCatchE (yaychiTryBody uid pr c) (pushMessage uid yaychiErrorMsg)) w = _
      rw [(guarded_run w).2 ct h]
      exact run_try_ok hbody
  · intro w uid tk l d c
    refine ⟨?_, ?_, ?_⟩
    · intro h
      exact (guarded_run (B := itemTryBody uid l d c)
        (H := pushMessage uid itemErrorMsg) w).1 h
    · intro ct w₂ h hbody
      show (reply tk (itemAck l d c) >>= fun _ =>
        tryCatchE (itemTryBody uid l d c) (pushMessage uid itemErrorMsg)) w = _
      rw [(guarded_run w).2 ct h]
      exact run_try_error hbody
    · intro ct w₂ h hbody
      show (reply tk (itemAck l d c) >>= fun _ =>
        tryCatchE (itemTryBody uid l d c) (pushMessage uid itemErrorMsg)) w = _
      rw [(guarded_run w).2 ct h]
      exact run_try_ok hbody
  · intro uid w
    have hcamp := pushMessage_single_chunk (t := campErrorMsg) (by decide) uid w
    have hyay := pushMessage_single_chunk (t := yaychiErrorMsg) (by decide) uid w
    have hitem := pushMessage_single_chunk (t := itemErrorMsg) (by decide) uid w
    exact ⟨fun h => ⟨hcamp.1 h, hyay.1 h, hitem.1 h⟩,
           fun ct h => ⟨hcamp.2 ct h, hyay.2 ct h, hitem.2 ct h⟩⟩

/-- Witness for the amended C6: the caught-exception conjunct applied at a
concrete script whose search generation call throws, discharging the
acknowledgment-success and body-failure hypotheses by computation. -/
theorem terminal_actions_guard_pipeline_witness :
    handleCampInfo "U" "T" "北海道" "3/1" "温泉"
        (initWorld [Outcome.ok "", Outcome.throw, Outcome.ok ""])
      = pushMessage "U" campErrorMsg
          { store := fun _ => none, env := [Outcome.ok ""],
            trace := [Call.replyCall "T" (campAck "北海道" "3/1" "温泉")] } :=
  (terminal_actions_guard_pipeline.1
      (initWorld [Outcome.ok "", Outcome.throw, Outcome.ok ""])
      "U" "T" "北海道" "3/1" "温泉").2.1 "" _ rfl rfl
